import Mathlib

/-!
Verification of the M-Pesa C++ SDK core against its specification.

The definitions below are a shallow embedding of the repository's source:
  - `src/include/mpesa/stk/validation/validator.hpp` (the validator that the
    build compiles; the stale `validator.cpp` revision is not built),
  - `src/include/mpesa/stk/validation/timestamp.hpp`,
  - `src/src/mpesa/auth.cpp` (token manager),
  - `src/src/mpesa/stk/client.cpp` (dispatcher, password codec, counters),
  - `src/src/mpesa/stk/callback.cpp` (callback parsing).

C++ `std::string` values are modelled as Lean `String` (byte-transparent for
the ASCII data the protocol carries); raw byte strings for the base64 codec
are modelled as `List Nat` with each element `< 256`.  JSON documents already
parsed by the external nlohmann library are modelled by the inductive
`JsonVal`; a transport body that is not valid JSON is modelled as `none`.
-/

namespace MpesaSdk

/-! ## JSON values (model of parsed nlohmann::json documents)

The library distinguishes floating-point numbers from integer numbers
(`is_number_float` / `is_number_integer`); floats carry no arithmetic in the
SDK, so they are modelled by their rational value. -/

inductive JsonVal where
  | null
  | boolean (b : Bool)
  | intNum (n : Int)
  | floatNum (q : Rat)
  | str (s : String)
  | arr (elems : List JsonVal)
  | obj (fields : List (String × JsonVal))

/-- First-match association-list lookup, the model of object key lookup. -/
def lookupField : List (String × JsonVal) → String → Option JsonVal
  | [], _ => none
  | (k, v) :: rest, key => if k = key then some v else lookupField rest key

/-- Key lookup on a JSON value; `none` both when the key is absent and when
the value is not an object (both cases make the C++ access paths used by the
SDK throw a `nlohmann::json::exception`). -/
def jsonLookup (j : JsonVal) (key : String) : Option JsonVal :=
  match j with
  | .obj fs => lookupField fs key
  | _ => none

/-- Model of fetching `j[key].get<std::string>()`: succeeds exactly when the
key is present with a string value. -/
def jsonGetStringField (j : JsonVal) (key : String) : Option String :=
  match jsonLookup j key with
  | some (.str s) => some s
  | _ => none

/-- Model of fetching `j[key].get<int>()`: succeeds exactly when the key is
present with an integer-number value. -/
def jsonGetIntField (j : JsonVal) (key : String) : Option Int :=
  match jsonLookup j key with
  | some (.intNum n) => some n
  | _ => none

/-- Range-`for` iteration over a nlohmann value: arrays iterate their
elements, objects their mapped values, null iterates nothing, and any other
primitive iterates itself once. -/
def jsonIterate : JsonVal → List JsonVal
  | .arr xs => xs
  | .obj fs => fs.map Prod.snd
  | .null => []
  | v => [v]

mutual

/-- Model of `nlohmann::json::dump()` (compact serialisation), used only as
the fallback text representation for metadata values. -/
def dumpJson : JsonVal → String
  | .null => "null"
  | .boolean b => cond b "true" "false"
  | .intNum n => toString n
  | .floatNum q => toString q
  | .str s => "\"" ++ s ++ "\""
  | .arr xs => "[" ++ dumpJsonList xs ++ "]"
  | .obj fs => "\x7b" ++ dumpJsonFields fs ++ "\x7d"

def dumpJsonList : List JsonVal → String
  | [] => ""
  | [x] => dumpJson x
  | x :: xs => dumpJson x ++ "," ++ dumpJsonList xs

def dumpJsonFields : List (String × JsonVal) → String
  | [] => ""
  | [(k, v)] => "\"" ++ k ++ "\":" ++ dumpJson v
  | (k, v) :: fs => "\"" ++ k ++ "\":" ++ dumpJson v ++ "," ++ dumpJsonFields fs

end

/-! ## Request data model (`include/mpesa/stk/request.hpp`) -/

inductive TransactionType where
  | CustomerPayBillOnline
  | CustomerBuyGoodsOnline
  deriving DecidableEq

structure STKPushRequest where
  businessShortCode : String
  password : String
  timestamp : String
  transactionType : TransactionType := .CustomerPayBillOnline
  amount : String
  partyA : String
  partyB : String
  phoneNumber : String
  callBackURL : String
  accountReference : String
  transactionDesc : String

/-! ## Timestamp validation (`validation/timestamp.hpp`) -/

/-- Value of a string of decimal digits, the model of `std::stoi` on the
all-digit substrings that `TimestampGenerator::isValid` extracts. -/
def digitsToNat (cs : List Char) : Nat :=
  cs.foldl (fun acc c => acc * 10 + (c.toNat - 48)) 0

namespace TimestampGenerator

/-- Embedding of `TimestampGenerator::isValid`: exactly 14 digits, month
1-12, day 1-31, hour 0-23, minute and second 0-59 (the year is unchecked,
and day validity is deliberately permissive, no per-month check). -/
def isValid (timestamp : String) : Bool :=
  let cs := timestamp.data
  if cs.length ≠ 14 then false
  else if ¬ cs.all Char.isDigit then false
  else
    let month := digitsToNat ((cs.drop 4).take 2)
    let day := digitsToNat ((cs.drop 6).take 2)
    let hour := digitsToNat ((cs.drop 8).take 2)
    let minute := digitsToNat ((cs.drop 10).take 2)
    let second := digitsToNat ((cs.drop 12).take 2)
    if month < 1 ∨ month > 12 then false
    else if day < 1 ∨ day > 31 then false
    else if hour > 23 then false
    else if minute > 59 then false
    else if second > 59 then false
    else true

/-- Fields of the broken-down UTC time (`struct tm` after `gmtime`) that
`strftime "%Y%m%d%H%M%S"` reads. -/
structure Tm where
  year : Nat
  month : Nat
  day : Nat
  hour : Nat
  minute : Nat
  second : Nat

/-- Zero-pad to two digits (`%m`, `%d`, `%H`, `%M`, `%S`). -/
def pad2 (n : Nat) : String :=
  if n < 10 then "0" ++ toString n else toString n

/-- Zero-pad to four digits (`%Y`). -/
def pad4 (n : Nat) : String :=
  if n < 10 then "000" ++ toString n
  else if n < 100 then "00" ++ toString n
  else if n < 1000 then "0" ++ toString n
  else toString n

/-- Embedding of `TimestampGenerator::generate`, as a function of the
broken-down UTC time at the moment of the call. -/
def generate (t : Tm) : String :=
  pad4 t.year ++ pad2 t.month ++ pad2 t.day ++ pad2 t.hour ++ pad2 t.minute ++ pad2 t.second

end TimestampGenerator

/-! ## Request validator (`validation/validator.hpp`, the compiled revision) -/

structure ValidationResult where
  isValid : Bool
  error : String
  deriving DecidableEq

def ValidationResult.success : ValidationResult := ⟨true, ""⟩

def ValidationResult.failure (message : String) : ValidationResult := ⟨false, message⟩

/-- Alphanumeric ASCII character, the `[a-zA-Z0-9]` class. -/
def isAlnum (c : Char) : Bool := c.isAlpha || c.isDigit

/-- The regex `^\d{5,6}$` (business short code). -/
def business_short_code_regex_match (s : String) : Bool :=
  (decide (5 ≤ s.length) && decide (s.length ≤ 6)) && s.data.all Char.isDigit

/-- The regex `^[1-9]\d*$` (amount: positive integer with no leading zero). -/
def amount_regex_match (s : String) : Bool :=
  match s.data with
  | [] => false
  | c :: rest => (decide ('1' ≤ c) && decide (c ≤ '9')) && rest.all Char.isDigit

/-- The regex `^2547\d{8}$` of `validator.hpp`: exactly 12 characters, the
literal prefix `2547`, then 8 decimal digits. -/
def phone_regex_match (s : String) : Bool :=
  decide (s.data.take 4 = ['2', '5', '4', '7']) && decide (s.data.length = 12)
    && (s.data.drop 4).all Char.isDigit

/-- One domain label, `[a-zA-Z0-9]([a-zA-Z0-9\-]{0,61}[a-zA-Z0-9])?`:
1 to 63 characters of alphanumerics and hyphens, first and last
alphanumeric. -/
def labelOk (l : List Char) : Bool :=
  (decide (1 ≤ l.length) && decide (l.length ≤ 63))
    && l.all (fun c => isAlnum c || c == '-')
    && (match l.head? with | some c => isAlnum c | none => false)
    && (match l.getLast? with | some c => isAlnum c | none => false)

/-- The top-level-domain part `[a-zA-Z]{2,}`. -/
def tldOk (l : List Char) : Bool :=
  decide (2 ≤ l.length) && l.all Char.isAlpha

/-- Split a character list on a separator (model of the `.`-structure of the
host part; labels and TLD cannot themselves contain `.`). -/
def splitOnChar (sep : Char) : List Char → List (List Char)
  | [] => [[]]
  | c :: rest =>
    let r := splitOnChar sep rest
    if c = sep then [] :: r
    else
      match r with
      | h :: t => (c :: h) :: t
      | [] => [[c]]

/-- The host part `([a-zA-Z0-9]([a-zA-Z0-9\-]{0,61}[a-zA-Z0-9])?\.)+[a-zA-Z]{2,}`:
one or more labels each followed by a dot, then a TLD. -/
def hostOk (host : List Char) : Bool :=
  let comps := splitOnChar '.' host
  decide (2 ≤ comps.length)
    && comps.dropLast.all labelOk
    && (match comps.getLast? with | some t => tldOk t | none => false)

/-- A character allowed in the path part of the callback-URL regex
(code 39 is the apostrophe from the regex character class). -/
def pathCharOk (c : Char) : Bool :=
  isAlnum c ||
    (c == '-' || c == '.' || c == '_' || c == '~' || c == ':' || c == '/' ||
     c == '?' || c == '#' || c == '[' || c == ']' || c == '@' || c == '!' ||
     c == '$' || c == '&' || c.toNat == 39 || c == '(' || c == ')' || c == '*' ||
     c == '+' || c == ',' || c == ';' || c == '=')

/-- The callback-URL regex of `validator.hpp`: literal `https://`, a host of
dot-terminated labels plus a TLD, then a mandatory `/` and a (possibly
empty) run of path characters.  Neither labels nor the TLD may contain `/`,
so the host extends exactly to the first `/` after the scheme. -/
def url_regex_match (s : String) : Bool :=
  match s.data with
  | 'h' :: 't' :: 't' :: 'p' :: 's' :: ':' :: '/' :: '/' :: rest =>
    let host := rest.takeWhile (fun c => c ≠ '/')
    match rest.dropWhile (fun c => c ≠ '/') with
    | '/' :: path => hostOk host && path.all pathCharOk
    | _ => false
  | _ => false

/-- Embedding of `Validator::validateSTKPushRequest` from `validator.hpp`
(the revision the build compiles), with its exact check order and error
messages. -/
def validateSTKPushRequest (request : STKPushRequest) : ValidationResult :=
  if !business_short_code_regex_match request.businessShortCode then
    ValidationResult.failure "Invalid BusinessShortCode format"
  else if request.password.isEmpty then
    ValidationResult.failure "Password cannot be empty"
  else if !TimestampGenerator.isValid request.timestamp then
    ValidationResult.failure "Invalid timestamp format"
  else if !phone_regex_match request.partyA then
    ValidationResult.failure "Invalid PartyA phone number format. Must be 12 digits starting with 2547"
  else if !phone_regex_match request.phoneNumber then
    ValidationResult.failure "Invalid phone number format. Must be 12 digits starting with 2547"
  else if request.partyB != request.businessShortCode then
    ValidationResult.failure "PartyB must match BusinessShortCode for PayBill transactions"
  else if !url_regex_match request.callBackURL then
    ValidationResult.failure "Invalid callback URL format. Must be HTTPS with valid domain"
  else if !amount_regex_match request.amount then
    ValidationResult.failure "Amount must be a positive number"
  else if request.accountReference.isEmpty || decide (request.accountReference.length > 12) then
    ValidationResult.failure "AccountReference must not be empty and cannot exceed 12 characters"
  else if request.transactionDesc.isEmpty || decide (request.transactionDesc.length > 13) then
    ValidationResult.failure "TransactionDesc must not be empty and cannot exceed 13 characters"
  else
    ValidationResult.success

/-- The validator's ten checks, paired with their error messages, in source
order; `true` means the check passes. -/
def orderedChecks (request : STKPushRequest) : List (Bool × String) :=
  [ (business_short_code_regex_match request.businessShortCode,
      "Invalid BusinessShortCode format"),
    (!request.password.isEmpty, "Password cannot be empty"),
    (TimestampGenerator.isValid request.timestamp, "Invalid timestamp format"),
    (phone_regex_match request.partyA,
      "Invalid PartyA phone number format. Must be 12 digits starting with 2547"),
    (phone_regex_match request.phoneNumber,
      "Invalid phone number format. Must be 12 digits starting with 2547"),
    (request.partyB == request.businessShortCode,
      "PartyB must match BusinessShortCode for PayBill transactions"),
    (url_regex_match request.callBackURL,
      "Invalid callback URL format. Must be HTTPS with valid domain"),
    (amount_regex_match request.amount, "Amount must be a positive number"),
    (!(request.accountReference.isEmpty || decide (request.accountReference.length > 12)),
      "AccountReference must not be empty and cannot exceed 12 characters"),
    (!(request.transactionDesc.isEmpty || decide (request.transactionDesc.length > 13)),
      "TransactionDesc must not be empty and cannot exceed 13 characters") ]

/-- Return the error message of the first failing check, or success when
every check passes: the shape of a short-circuiting validator. -/
def firstViolation : List (Bool × String) → ValidationResult
  | [] => ValidationResult.success
  | (true, _) :: rest => firstViolation rest
  | (false, message) :: _ => ValidationResult.failure message

/-- The spec's phone format, transcribed from its words: `254` followed by
any 9 decimal digits (12 characters in all). -/
def spec_phone_254_9digits (s : String) : Bool :=
  decide (s.data.take 3 = ['2', '5', '4']) && decide (s.data.length = 12)
    && (s.data.drop 3).all Char.isDigit

/-! ## Base64 codec (`STKPushClient::Base64Encode`, OpenSSL BIO with
`BIO_FLAGS_BASE64_NO_NL`: standard RFC 4648 base64 with `=` padding and no
line breaks).  Bytes of a C++ `std::string` are modelled as `Nat < 256`. -/

/-- The 64-character base64 alphabet. -/
def b64Table : List Char :=
  ['A', 'B', 'C', 'D', 'E', 'F', 'G', 'H', 'I', 'J', 'K', 'L', 'M',
   'N', 'O', 'P', 'Q', 'R', 'S', 'T', 'U', 'V', 'W', 'X', 'Y', 'Z',
   'a', 'b', 'c', 'd', 'e', 'f', 'g', 'h', 'i', 'j', 'k', 'l', 'm',
   'n', 'o', 'p', 'q', 'r', 's', 't', 'u', 'v', 'w', 'x', 'y', 'z',
   '0', '1', '2', '3', '4', '5', '6', '7', '8', '9', '+', '/']

def b64Char (n : Nat) : Char := b64Table.getD n 'A'

/-- Base64 encoding of a byte string, three input bytes to four output
characters, with `=` padding on a trailing group of one or two bytes. -/
def Base64Encode : List Nat → List Char
  | [] => []
  | [b1] =>
    [b64Char (b1 / 4), b64Char (b1 % 4 * 16), '=', '=']
  | [b1, b2] =>
    [b64Char (b1 / 4), b64Char (b1 % 4 * 16 + b2 / 16), b64Char (b2 % 16 * 4), '=']
  | b1 :: b2 :: b3 :: rest =>
    b64Char (b1 / 4) :: b64Char (b1 % 4 * 16 + b2 / 16) ::
      b64Char (b2 % 16 * 4 + b3 / 64) :: b64Char (b3 % 64) :: Base64Encode rest

/-- Index of a character in the base64 alphabet. -/
def b64ValAux : List Char → Nat → Char → Option Nat
  | [], _, _ => none
  | t :: ts, i, c => if t = c then some i else b64ValAux ts (i + 1) c

def b64Val (c : Char) : Option Nat := b64ValAux b64Table 0 c

/-- Decode one four-character base64 group into one, two or three bytes,
honouring `=` padding. -/
def decodeChunk (c1 c2 c3 c4 : Char) : Option (List Nat) :=
  match b64Val c1, b64Val c2 with
  | some n1, some n2 =>
    if c3 = '=' then
      if c4 = '=' then some [n1 * 4 + n2 / 16] else none
    else
      match b64Val c3 with
      | some n3 =>
        if c4 = '=' then some [n1 * 4 + n2 / 16, n2 % 16 * 16 + n3 / 4]
        else
          match b64Val c4 with
          | some n4 => some [n1 * 4 + n2 / 16, n2 % 16 * 16 + n3 / 4, n3 % 4 * 64 + n4]
          | none => none
      | none => none
  | _, _ => none

/-- Standard base64 decoding, the inverse direction the spec appeals to
("decoding it reproduces exactly that concatenation byte-for-byte"); the
repository itself only encodes. -/
def base64Decode : List Char → Option (List Nat)
  | [] => some []
  | c1 :: c2 :: c3 :: c4 :: rest =>
    match decodeChunk c1 c2 c3 c4, base64Decode rest with
    | some bytes, some tail => some (bytes ++ tail)
    | _, _ => none
  | _ => none

/-- Embedding of `STKPushClient::generatePassword` on byte strings:
base64 of the concatenation `businessShortCode + passkey + timestamp`. -/
def generatePassword (businessShortCode passkey timestamp : List Nat) : List Char :=
  Base64Encode (businessShortCode ++ passkey ++ timestamp)

/-- Variant of `generatePassword` on ASCII `String`s (the SDK feeds it short codes,
passkeys and 14-digit timestamps), used by the request-stamping step. -/
def generatePasswordStr (businessShortCode passkey timestamp : String) : String :=
  String.mk (Base64Encode ((businessShortCode ++ passkey ++ timestamp).data.map Char.toNat))

/-! ## Token manager (`src/mpesa/auth.cpp`)

The error taxonomy `AuthErrorCode` is declared in `mpesa/auth.h`, which is
not part of the sources; its constructors are exactly the values `auth.cpp`
uses. -/

inductive AuthErrorCode where
  | SUCCESS
  | DNS_ERROR
  | CONNECTION_ERROR
  | TIMEOUT_ERROR
  | SSL_ERROR
  | NETWORK_ERROR
  | INVALID_GRANT_TYPE
  | INVALID_AUTH_TYPE
  | INVALID_CREDENTIALS
  | SERVER_ERROR
  | HTTP_ERROR
  | API_ERROR
  | PARSE_ERROR
  | INITIALIZATION_ERROR
  | CONFIG_ERROR
  deriving DecidableEq

/-- The libcurl failure kinds `map_curl_error` distinguishes. -/
inductive CurlFailure where
  | couldntResolveHost
  | couldntConnect
  | operationTimedout
  | sslConnectError
  | otherFailure
  deriving DecidableEq

/-- Embedding of `map_curl_error` (auth.cpp). -/
def map_curl_error : CurlFailure → AuthErrorCode
  | .couldntResolveHost => .DNS_ERROR
  | .couldntConnect => .CONNECTION_ERROR
  | .operationTimedout => .TIMEOUT_ERROR
  | .sslConnectError => .SSL_ERROR
  | .otherFailure => .NETWORK_ERROR

/-- The fixed table inside `map_mpesa_error` from a known API error-code
string to a taxonomy value, defaulting to `API_ERROR`. -/
def map_mpesa_error_code (error_code : String) : AuthErrorCode :=
  if error_code = "400.008.02" then .INVALID_GRANT_TYPE
  else if error_code = "400.008.01" then .INVALID_AUTH_TYPE
  else if error_code = "401.002.01" then .INVALID_CREDENTIALS
  else if error_code = "500.001.1001" then .SERVER_ERROR
  else .API_ERROR

/-- Embedding of `map_mpesa_error` (auth.cpp): `SUCCESS` when the body has
no `errorCode` field (including a non-object body, where `contains` is
false); `none` models the `nlohmann::json::exception` thrown by
`get<std::string>` on a non-string `errorCode` value. -/
def map_mpesa_error (response : JsonVal) : Option AuthErrorCode :=
  match response with
  | .obj fs =>
    match lookupField fs "errorCode" with
    | none => some .SUCCESS
    | some (.str ec) => some (map_mpesa_error_code ec)
    | some _ => none
  | _ => some .SUCCESS

/-- The `errorCode` field of a body when it is present as a string: the
shape on which the protocol/server-error sub-mapping applies. -/
def jsonErrorCode (j : JsonVal) : Option String :=
  match j with
  | .obj fs =>
    match lookupField fs "errorCode" with
    | some (.str ec) => some ec
    | _ => none
  | _ => none

/-- Leading decimal value of a character list; `none` when the first
character is not a digit. -/
def leadingNat (cs : List Char) : Option Nat :=
  match cs.takeWhile Char.isDigit with
  | [] => none
  | ds => some (digitsToNat ds)

/-- Model of `std::stoi`: optional leading whitespace, optional sign, then
at least one digit; trailing non-digit characters are ignored.  `none`
models the `std::invalid_argument` it throws otherwise. -/
def cppStoi (s : String) : Option Int :=
  let cs := s.data.dropWhile (fun c => c = ' ' || c = '\t' || c = '\n' || c = '\r')
  match cs with
  | '-' :: rest => (leadingNat rest).map (fun n => -(n : Int))
  | '+' :: rest => (leadingNat rest).map (fun n => (n : Int))
  | _ => (leadingNat cs).map (fun n => (n : Int))

/-- The token manager's cached state (`current_token_`, `token_expiry_`,
`last_error_`); time instants are integers. -/
structure AuthState where
  current_token_ : Option String
  token_expiry_ : Int
  last_error_ : AuthErrorCode
  deriving DecidableEq

/-- Mirror of the C++ `AuthResponse` value `refreshToken` returns. -/
structure AuthResponse where
  access_token : String
  expires_in : Int
  error_code : AuthErrorCode
  deriving DecidableEq

/-- Outcome of one attempted HTTP exchange, as the token manager observes
it: a transport-level curl failure, or a status code with a body (`none`
models a body that is not valid JSON). -/
inductive TransportOutcome where
  | curlError (c : CurlFailure)
  | response (http_code : Nat) (body : Option JsonVal)

/-- Result of `Auth::refreshToken`: a normal return carrying the new state
and the `AuthResponse`, or an exception that is not caught inside
`refreshToken` (the `std::invalid_argument` from `std::stoi`). -/
inductive RefreshResult where
  | ret (state : AuthState) (resp : AuthResponse)
  | uncaughtException (state : AuthState)

/-- Embedding of `Auth::refreshToken`.  `curlInitOk` is whether
`curl_easy_init` succeeded; `tr` is the transport outcome of the one HTTP
exchange; `now` is the current time used for the new expiry. -/
def refreshToken (now : Int) (curlInitOk : Bool) (tr : TransportOutcome)
    (s : AuthState) : RefreshResult :=
  if !curlInitOk then
    .ret { s with last_error_ := .INITIALIZATION_ERROR } ⟨"", 0, .INITIALIZATION_ERROR⟩
  else
    match tr with
    | .curlError c =>
      .ret { s with last_error_ := map_curl_error c } ⟨"", 0, map_curl_error c⟩
    | .response http_code body =>
      if 400 ≤ http_code then
        .ret { s with last_error_ := .HTTP_ERROR } ⟨"", 0, .HTTP_ERROR⟩
      else
        match body with
        | none =>
          .ret { s with last_error_ := .PARSE_ERROR } ⟨"", 0, .PARSE_ERROR⟩
        | some j =>
          match map_mpesa_error j with
          | none =>
            .ret { s with last_error_ := .PARSE_ERROR } ⟨"", 0, .PARSE_ERROR⟩
          | some e =>
            if e ≠ .SUCCESS then
              .ret { s with last_error_ := e } ⟨"", 0, e⟩
            else
              match jsonGetStringField j "access_token" with
              | none =>
                .ret { s with last_error_ := .PARSE_ERROR } ⟨"", 0, .PARSE_ERROR⟩
              | some tok =>
                match jsonGetStringField j "expires_in" with
                | none =>
                  .ret { s with last_error_ := .PARSE_ERROR } ⟨"", 0, .PARSE_ERROR⟩
                | some es =>
                  match cppStoi es with
                  | none => .uncaughtException s
                  | some secs =>
                    .ret ⟨some tok, now + secs, .SUCCESS⟩ ⟨tok, secs, .SUCCESS⟩

/-- What a `getAccessToken` call produces for its caller: a token, a thrown
`AuthenticationError` carrying a taxonomy code, or the uncaught
`std::invalid_argument`. -/
inductive GetTokenOutcome where
  | token (t : String)
  | authError (code : AuthErrorCode)
  | uncaughtException
  deriving DecidableEq

/-- Number of HTTP exchanges a refresh attempt performs: none when
`curl_easy_init` fails, otherwise exactly one. -/
def transportCalls (curlInitOk : Bool) : Nat := if curlInitOk then 1 else 0

/-- Embedding of `Auth::getAccessToken`: under the token lock, return the
cached token when one is present and unexpired, otherwise refresh.  The
third component counts Transport calls made by this call. -/
def getAccessToken (now : Int) (curlInitOk : Bool) (tr : TransportOutcome)
    (s : AuthState) : AuthState × GetTokenOutcome × Nat :=
  if s.current_token_.isSome ∧ now < s.token_expiry_ then
    (s, .token (s.current_token_.getD ""), 0)
  else
    match refreshToken now curlInitOk tr s with
    | .uncaughtException s' => (s', .uncaughtException, transportCalls curlInitOk)
    | .ret s' resp =>
      if resp.error_code ≠ .SUCCESS then
        (s', .authError resp.error_code, transportCalls curlInitOk)
      else
        (s', .token (s'.current_token_.getD ""), transportCalls curlInitOk)

/-! ## STK Push client (`src/mpesa/stk/client.cpp`) -/

/-- The client state relevant to dispatching: the configured STK passkey
(read through `auth_.getConfig().stk_passkey`) and the timestamp generated
once in the constructor. -/
structure STKPushClient where
  stk_passkey : String
  timestamp_ : String

/-- Embedding of the `STKPushClient` constructor: the member `timestamp_`
is initialised with `TimestampGenerator::generate()` at construction
time. -/
def STKPushClient.construct (stk_passkey : String)
    (constructionTime : TimestampGenerator.Tm) : STKPushClient :=
  ⟨stk_passkey, TimestampGenerator.generate constructionTime⟩

/-- The first, synchronous step of `initiateSTKPush`: set `request.password`
from the short code, configured passkey and the client's stored timestamp,
and set `request.timestamp` to that same stored timestamp. -/
def stampRequest (client : STKPushClient) (request : STKPushRequest) : STKPushRequest :=
  { request with
    password := generatePasswordStr request.businessShortCode client.stk_passkey client.timestamp_,
    timestamp := client.timestamp_ }

/-- The success value parsed from the payment endpoint's acknowledgement
body (`STKPushResponse`, response.hpp). -/
structure STKPushResponse where
  merchantRequestID : String
  checkoutRequestID : String
  responseCode : String
  responseDescription : String
  customerMessage : String
  deriving DecidableEq

/-- Mirror of `Result<STKPushResponse>`: a success value or an error
message. -/
inductive DispatchResult where
  | ok (response : STKPushResponse)
  | err (message : String)
  deriving DecidableEq

/-- The success/failure counters (`successCount_`, `failureCount_`). -/
structure Counters where
  success : Nat
  failure : Nat
  deriving DecidableEq

/-- Model of `curl_easy_strerror` for the distinguished failure kinds
(external libcurl text). -/
def curl_easy_strerror : CurlFailure → String
  | .couldntResolveHost => "Couldn't resolve host name"
  | .couldntConnect => "Couldn't connect to server"
  | .operationTimedout => "Timeout was reached"
  | .sslConnectError => "SSL connect error"
  | .otherFailure => "Unknown error"

/-- The environment one dispatch's async body runs against: whether
`curl_easy_init` succeeds, what `auth_.getAccessToken()` yields (`none`
models the `AuthenticationError` it throws on failure), and the outcome of
the HTTP exchange. -/
structure DispatchEnv where
  curlInitOk : Bool
  tokenResult : Option String
  transport : TransportOutcome

/-- Embedding of the async body of `STKPushClient::initiateSTKPush`, from
validation to the returned `Result`, threading the two counters.  Every
completion path is one of: validation failure, curl-init failure (thrown,
caught by the outer handler), token failure (thrown `AuthenticationError`,
caught by the outer handler), transport failure, HTTP >= 400 (with or
without a parseable API error body), success-body parse failure, or
success. -/
def dispatchBody (env : DispatchEnv) (localRequest : STKPushRequest)
    (c : Counters) : Counters × DispatchResult :=
  let validation := validateSTKPushRequest localRequest
  if !validation.isValid then
    ({ c with failure := c.failure + 1 }, .err validation.error)
  else if !env.curlInitOk then
    ({ c with failure := c.failure + 1 }, .err "Request error: Failed to initialize CURL")
  else
    match env.tokenResult with
    | none =>
      ({ c with failure := c.failure + 1 }, .err "Request error: Failed to get access token")
    | some _tok =>
      match env.transport with
      | .curlError ce =>
        ({ c with failure := c.failure + 1 }, .err ("CURL error: " ++ curl_easy_strerror ce))
      | .response http_code body =>
        if 400 ≤ http_code then
          ({ c with failure := c.failure + 1 },
            match body with
            | some j =>
              match jsonGetStringField j "errorMessage", jsonGetStringField j "errorCode" with
              | some m, some ec => .err ("API Error: " ++ m ++ " (Code: " ++ ec ++ ")")
              | _, _ => .err ("HTTP error: " ++ toString http_code)
            | none => .err ("HTTP error: " ++ toString http_code))
        else
          match body with
          | none =>
            ({ c with failure := c.failure + 1 }, .err "JSON parse error: bad response body")
          | some j =>
            match jsonGetStringField j "MerchantRequestID",
                  jsonGetStringField j "CheckoutRequestID",
                  jsonGetStringField j "ResponseCode",
                  jsonGetStringField j "ResponseDescription",
                  jsonGetStringField j "CustomerMessage" with
            | some mrid, some cid, some rc, some rdesc, some cm =>
              ({ c with success := c.success + 1 }, .ok ⟨mrid, cid, rc, rdesc, cm⟩)
            | _, _, _, _, _ =>
              ({ c with failure := c.failure + 1 }, .err "JSON parse error: bad response body")

/-- Embedding of one whole `initiateSTKPush` call: stamp the request with
the client's password/timestamp, then run the async body. -/
def runInitiate (client : STKPushClient) (env : DispatchEnv)
    (request : STKPushRequest) (c : Counters) : Counters × DispatchResult :=
  dispatchBody env (stampRequest client request) c

/-! ## Callback parsing (`src/mpesa/stk/callback.cpp`) -/

/-- The typed value of one metadata item
(`std::variant<std::string, double, int64_t>`). -/
inductive MetadataValue where
  | text (s : String)
  | floating (q : Rat)
  | integer (n : Int)
  deriving DecidableEq

structure CallbackMetadataItem where
  name : String
  value : MetadataValue
  deriving DecidableEq

/-- The parsed callback (`STKCallback`, response.hpp); `resultCode` keeps
the raw integer that `static_cast<STKPushErrorCode>` preserves. -/
structure STKCallback where
  merchantRequestID : String
  checkoutRequestID : String
  resultCode : Int
  resultDesc : String
  callbackMetadata : Option (List CallbackMetadataItem)
  deriving DecidableEq

/-- The shape-directed typing of a metadata `Value`
(`is_number_float` / `is_number_integer` / `is_string`, then the
serialise-to-text fallback); it is total, so no value shape can fail. -/
def typeMetadataValue : JsonVal → MetadataValue
  | .floatNum q => .floating q
  | .intNum n => .integer n
  | .str s => .text s
  | v => .text (dumpJson v)

/-- Parse one entry of the metadata `Item` list: `Name` must be a string
(its assignment to `std::string` throws otherwise), `Value` may have any
shape. -/
def parseMetadataItem (item : JsonVal) : Option CallbackMetadataItem :=
  match jsonGetStringField item "Name" with
  | some n =>
    match jsonLookup item "Value" with
    | some v => some ⟨n, typeMetadataValue v⟩
    | none => none
  | none => none

/-- Parse the entries in iteration order, mirroring the C++ loop that
appends each parsed item and aborts the whole parse on the first throwing
entry. -/
def parseMetadataItems : List JsonVal → Option (List CallbackMetadataItem)
  | [] => some []
  | item :: rest =>
    match parseMetadataItem item, parseMetadataItems rest with
    | some x, some xs => some (x :: xs)
    | _, _ => none

/-- Parse the whole `Item` collection in iteration order. -/
def parseMetadataList (itemsJson : JsonVal) : Option (List CallbackMetadataItem) :=
  parseMetadataItems (jsonIterate itemsJson)

/-- Embedding of `CallbackParser::parseCallback` on an already-parsed JSON
body: navigate `Body.stkCallback`, read the two IDs, the integer
`ResultCode` and `ResultDesc`, then the optional ordered metadata list.
Every failure is the single wrapped parse error. -/
def parseCallback (j : JsonVal) : Except String STKCallback :=
  match (jsonLookup j "Body").bind (fun b => jsonLookup b "stkCallback") with
  | none => .error "Failed to parse callback"
  | some sc =>
    match jsonGetStringField sc "MerchantRequestID",
          jsonGetStringField sc "CheckoutRequestID",
          jsonGetIntField sc "ResultCode",
          jsonGetStringField sc "ResultDesc" with
    | some mrid, some cid, some rc, some rdesc =>
      match (jsonLookup sc "CallbackMetadata").bind (fun cm => jsonLookup cm "Item") with
      | none => .ok ⟨mrid, cid, rc, rdesc, none⟩
      | some itemsJson =>
        match parseMetadataList itemsJson with
        | some items => .ok ⟨mrid, cid, rc, rdesc, some items⟩
        | none => .error "Failed to parse callback"
    | _, _, _, _ => .error "Failed to parse callback"

/-! ## Concrete sample data for witnesses -/

/-- A request that satisfies every validator check. -/
def sampleRequest : STKPushRequest :=
  { businessShortCode := "174379"
    password := "x"
    timestamp := "20240101120000"
    transactionType := .CustomerPayBillOnline
    amount := "1"
    partyA := "254712345678"
    partyB := "174379"
    phoneNumber := "254712345678"
    callBackURL := "https://example.com/callback"
    accountReference := "Ref"
    transactionDesc := "Desc" }

/-! ## Theorems for the claims -/

theorem firstViolation_cons (b : Bool) (message : String) (l : List (Bool × String)) :
    firstViolation ((b, message) :: l) =
      if !b then ValidationResult.failure message else firstViolation l := by
  cases b <;> rfl

theorem firstViolation_of_all_passes :
    ∀ l : List (Bool × String), l.all (fun p => p.1) = true →
      firstViolation l = ValidationResult.success
  | [], _ => rfl
  | (b, _) :: rest, h => by
    cases b
    · simp at h
    · exact firstViolation_of_all_passes rest (by simpa using h)

/-- C1: validation is a pure short-circuiting check returning the first
violation, testing the ten fields in exactly the source order (short code,
password, timestamp, partyA phone, phoneNumber phone, partyB equality,
callback URL, amount, account reference, transaction description), and a
request satisfying all checks validates successfully. -/
theorem validate_is_ordered_first_violation (r : STKPushRequest) :
    validateSTKPushRequest r = firstViolation (orderedChecks r) ∧
    ((orderedChecks r).all (fun p => p.1) = true →
      validateSTKPushRequest r = ValidationResult.success) := by
  have h : validateSTKPushRequest r = firstViolation (orderedChecks r) := by
    simp only [validateSTKPushRequest, orderedChecks, firstViolation_cons, firstViolation,
      Bool.not_not, bne]
  exact ⟨h, fun hall => h.trans (firstViolation_of_all_passes _ hall)⟩

/-- Witness for C1: a concrete request passing every check validates
successfully. -/
theorem validate_is_ordered_first_violation_witness :
    (orderedChecks sampleRequest).all (fun p => p.1) = true ∧
    validateSTKPushRequest sampleRequest = ValidationResult.success :=
  ⟨by decide, (validate_is_ordered_first_violation sampleRequest).2 (by decide)⟩

/-- C2 counterexample: `"254012345678"` is `254` followed by 9 decimal
digits, yet the compiled validator's phone check rejects it (and the
validator rejects a request carrying it as partyA), because the regex is
`^2547\d{8}$`. -/
theorem phone_check_rejects_254_plus_9_digits :
    spec_phone_254_9digits "254012345678" = true ∧
    phone_regex_match "254012345678" = false ∧
    validateSTKPushRequest { sampleRequest with partyA := "254012345678" } =
      ValidationResult.failure
        "Invalid PartyA phone number format. Must be 12 digits starting with 2547" := by
  decide

/-- C2 amended: the phone checks accept exactly the 12-character strings
consisting of `254` followed by 9 decimal digits whose first digit after
`254` is `7`, i.e. `2547` followed by 8 digits. -/
theorem phone_check_accepts_exactly_2547_prefix (s : String) :
    phone_regex_match s = true ↔
      (spec_phone_254_9digits s = true ∧ s.data.take 4 = ['2', '5', '4', '7']) := by
  unfold phone_regex_match spec_phone_254_9digits
  simp only [Bool.and_eq_true, decide_eq_true_eq, List.all_eq_true]
  constructor
  · rintro ⟨⟨h4, h12⟩, hdig⟩
    have hdata : s.data = ['2', '5', '4', '7'] ++ s.data.drop 4 := by
      conv_lhs => rw [← List.take_append_drop 4 s.data]
      rw [h4]
    have ht3 : s.data.take 3 = ['2', '5', '4'] := by rw [hdata]; rfl
    have hd3 : s.data.drop 3 = '7' :: s.data.drop 4 := by rw [hdata]; rfl
    refine ⟨⟨⟨ht3, h12⟩, ?_⟩, h4⟩
    intro c hc
    rw [hd3] at hc
    rcases List.mem_cons.mp hc with hc7 | hc4
    · subst hc7; rfl
    · exact hdig c hc4
  · rintro ⟨⟨⟨_, h12⟩, hdig3⟩, h4⟩
    have hdata : s.data = ['2', '5', '4', '7'] ++ s.data.drop 4 := by
      conv_lhs => rw [← List.take_append_drop 4 s.data]
      rw [h4]
    have hd3 : s.data.drop 3 = '7' :: s.data.drop 4 := by rw [hdata]; rfl
    refine ⟨⟨h4, h12⟩, ?_⟩
    intro c hc
    exact hdig3 c (by rw [hd3]; exact List.mem_cons_of_mem _ hc)

/-- C10: no validation rule reads the transaction kind (the result is
invariant under changing it), and the partyB-equals-short-code rule rejects
a request whose earlier checks pass and whose partyB differs from the
business short code, whatever the transaction kind, with the PayBill error
message. -/
theorem validation_ignores_transaction_kind :
    (∀ (r : STKPushRequest) (t₁ t₂ : TransactionType),
      validateSTKPushRequest { r with transactionType := t₁ } =
        validateSTKPushRequest { r with transactionType := t₂ }) ∧
    (∀ r : STKPushRequest,
      business_short_code_regex_match r.businessShortCode = true →
      r.password.isEmpty = false →
      TimestampGenerator.isValid r.timestamp = true →
      phone_regex_match r.partyA = true →
      phone_regex_match r.phoneNumber = true →
      r.partyB ≠ r.businessShortCode →
      validateSTKPushRequest r =
        ValidationResult.failure "PartyB must match BusinessShortCode for PayBill transactions") := by
  constructor
  · intro r t₁ t₂; rfl
  · intro r h1 h2 h3 h4 h5 h6
    simp [validateSTKPushRequest, h1, h2, h3, h4, h5, bne_iff_ne, h6]

/-- Witness for C10: a BuyGoodsOnline request with partyB different from
the business short code is rejected with the partyB message. -/
theorem validation_ignores_transaction_kind_witness :
    validateSTKPushRequest
        { sampleRequest with transactionType := .CustomerBuyGoodsOnline, partyB := "200200" } =
      ValidationResult.failure "PartyB must match BusinessShortCode for PayBill transactions" :=
  validation_ignores_transaction_kind.2 _
    (by decide) (by decide) (by decide) (by decide) (by decide) (by decide)

/-- C3: when a cached token is present and unexpired, `getAccessToken`
returns it with no Transport call and unchanged state; hence two calls
within the cached expiry window make at most one Transport call in total. -/
theorem cached_token_reused_without_transport :
    ∀ (s : AuthState) (t : String) (now₁ now₂ : Int) (ok₁ ok₂ : Bool)
      (tr₁ tr₂ : TransportOutcome),
      s.current_token_ = some t → now₁ < s.token_expiry_ → now₂ < s.token_expiry_ →
      getAccessToken now₁ ok₁ tr₁ s = (s, .token t, 0) ∧
      getAccessToken now₂ ok₂ tr₂ (getAccessToken now₁ ok₁ tr₁ s).1 = (s, .token t, 0) ∧
      (getAccessToken now₁ ok₁ tr₁ s).2.2 +
        (getAccessToken now₂ ok₂ tr₂ (getAccessToken now₁ ok₁ tr₁ s).1).2.2 ≤ 1 := by
  intro s t now₁ now₂ ok₁ ok₂ tr₁ tr₂ h h1 h2
  have e1 : getAccessToken now₁ ok₁ tr₁ s = (s, .token t, 0) := by
    unfold getAccessToken
    rw [if_pos ⟨by simp [h], h1⟩]
    simp [h]
  have e2 : getAccessToken now₂ ok₂ tr₂ s = (s, .token t, 0) := by
    unfold getAccessToken
    rw [if_pos ⟨by simp [h], h2⟩]
    simp [h]
  refine ⟨e1, ?_, ?_⟩
  · rw [e1]; exact e2
  · rw [e1]; simp [e2]

/-- Witness for C3: two calls on a concrete cached state make zero
Transport calls. -/
theorem cached_token_reused_without_transport_witness :
    getAccessToken 1 true (.curlError .couldntConnect) ⟨some "tok", 100, .SUCCESS⟩ =
      (⟨some "tok", 100, .SUCCESS⟩, .token "tok", 0) ∧
    getAccessToken 2 true (.curlError .couldntConnect)
        (getAccessToken 1 true (.curlError .couldntConnect) ⟨some "tok", 100, .SUCCESS⟩).1 =
      (⟨some "tok", 100, .SUCCESS⟩, .token "tok", 0) ∧
    (getAccessToken 1 true (.curlError .couldntConnect) ⟨some "tok", 100, .SUCCESS⟩).2.2 +
      (getAccessToken 2 true (.curlError .couldntConnect)
        (getAccessToken 1 true (.curlError .couldntConnect) ⟨some "tok", 100, .SUCCESS⟩).1).2.2 ≤ 1 :=
  cached_token_reused_without_transport ⟨some "tok", 100, .SUCCESS⟩ "tok" 1 2 true true
    (.curlError .couldntConnect) (.curlError .couldntConnect) rfl (by decide) (by decide)

theorem map_mpesa_error_of_errorCode (j : JsonVal) (ec : String)
    (h : jsonErrorCode j = some ec) :
    map_mpesa_error j = some (map_mpesa_error_code ec) := by
  cases j with
  | obj fs =>
    simp only [jsonErrorCode] at h
    simp only [map_mpesa_error]
    cases hl : lookupField fs "errorCode" with
    | none => rw [hl] at h; cases h
    | some v =>
      rw [hl] at h
      cases v <;> simp_all
  | null => cases h
  | boolean b => cases h
  | intNum n => cases h
  | floatNum q => cases h
  | str s => cases h
  | arr xs => cases h

theorem map_mpesa_error_code_ne_success (ec : String) :
    map_mpesa_error_code ec ≠ .SUCCESS := by
  unfold map_mpesa_error_code
  split_ifs <;> simp

/-- C4: whenever a refresh returns a failure (transport failure,
HTTP >= 400, API error payload, parse error), the cached token and expiry
are unchanged and the last-error field equals the propagated error code;
moreover the propagated code is the mapped taxonomy code for each listed
failure kind (curl mapping, HTTP_ERROR, API error-code mapping). -/
theorem refresh_failure_preserves_state_and_maps_error :
    ∀ (now : Int) (ok : Bool) (tr : TransportOutcome) (s : AuthState),
      (∀ s' resp, refreshToken now ok tr s = .ret s' resp →
        resp.error_code ≠ .SUCCESS →
          s'.current_token_ = s.current_token_ ∧
          s'.token_expiry_ = s.token_expiry_ ∧
          s'.last_error_ = resp.error_code) ∧
      (∀ c, ok = true → tr = .curlError c →
        refreshToken now ok tr s =
          .ret { s with last_error_ := map_curl_error c } ⟨"", 0, map_curl_error c⟩) ∧
      (∀ http_code body, ok = true → tr = .response http_code body → 400 ≤ http_code →
        refreshToken now ok tr s =
          .ret { s with last_error_ := .HTTP_ERROR } ⟨"", 0, .HTTP_ERROR⟩) ∧
      (∀ http_code j ec, ok = true → tr = .response http_code (some j) → http_code < 400 →
        jsonErrorCode j = some ec →
        refreshToken now ok tr s =
          .ret { s with last_error_ := map_mpesa_error_code ec }
            ⟨"", 0, map_mpesa_error_code ec⟩) := by
  intro now ok tr s
  refine ⟨?_, ?_, ?_, ?_⟩
  · intro s' resp h hne
    unfold refreshToken at h
    repeat' split at h
    all_goals first
      | (cases h; exact ⟨rfl, rfl, rfl⟩)
      | (cases h; exact absurd rfl hne)
      | cases h
  · intro c hok htr
    subst hok; subst htr
    rfl
  · intro http_code body hok htr h400
    subst hok; subst htr
    unfold refreshToken
    simp [h400]
  · intro http_code j ec hok htr hlt hec
    subst hok; subst htr
    have hne400 : ¬ 400 ≤ http_code := by omega
    have hmap := map_mpesa_error_of_errorCode j ec hec
    unfold refreshToken
    simp [hne400, hmap, map_mpesa_error_code_ne_success ec]

/-- Witness for C4: a concrete connection failure leaves the cached token
and expiry unchanged and records the mapped code. -/
theorem refresh_failure_preserves_state_witness :
    (⟨some "tok", 50, AuthErrorCode.CONNECTION_ERROR⟩ : AuthState).current_token_ =
        (⟨some "tok", 50, AuthErrorCode.SUCCESS⟩ : AuthState).current_token_ ∧
    (⟨some "tok", 50, AuthErrorCode.CONNECTION_ERROR⟩ : AuthState).token_expiry_ =
        (⟨some "tok", 50, AuthErrorCode.SUCCESS⟩ : AuthState).token_expiry_ ∧
    (⟨some "tok", 50, AuthErrorCode.CONNECTION_ERROR⟩ : AuthState).last_error_ =
        (⟨"", 0, AuthErrorCode.CONNECTION_ERROR⟩ : AuthResponse).error_code :=
  (refresh_failure_preserves_state_and_maps_error 0 true (.curlError .couldntConnect)
      ⟨some "tok", 50, .SUCCESS⟩).1
    ⟨some "tok", 50, .CONNECTION_ERROR⟩ ⟨"", 0, .CONNECTION_ERROR⟩ rfl (by decide)

/-- C5, the code bug witness: a transport-successful HTTP 200 token body
whose `expires_in` is the non-numeric string `"abc"` makes the refresh end
in an uncaught `std::invalid_argument` from `std::stoi` (state untouched,
last-error not set), instead of returning the PARSE_ERROR taxonomy code the
spec promises for malformed bodies. -/
theorem refresh_stoi_exception_escapes :
    refreshToken 0 true
        (.response 200 (some (.obj [("access_token", .str "t"), ("expires_in", .str "abc")])))
        ⟨none, 0, .SUCCESS⟩ =
      .uncaughtException ⟨none, 0, .SUCCESS⟩ := by
  rfl

theorem b64Val_b64Char : ∀ n : Nat, n < 64 → b64Val (b64Char n) = some n := by
  decide

theorem b64Char_ne_pad (n : Nat) : b64Char n ≠ '=' := by
  by_cases h : n < 64
  · exact (by decide : ∀ m : Nat, m < 64 → b64Char m ≠ '=') n h
  · have hlen : b64Table.length ≤ n := by
      have h64 : b64Table.length = 64 := by decide
      omega
    unfold b64Char
    rw [List.getD_eq_default _ _ hlen]
    decide

/-- Decoding inverts encoding, chunk by chunk, on genuine byte strings. -/
theorem base64Decode_Base64Encode :
    ∀ bs : List Nat, (∀ b ∈ bs, b < 256) →
      base64Decode (Base64Encode bs) = some bs
  | [], _ => rfl
  | [b1], h => by
    have h1 : b1 < 256 := h b1 (by simp)
    simp only [Base64Encode, base64Decode, decodeChunk,
      b64Val_b64Char (b1 / 4) (by omega), b64Val_b64Char (b1 % 4 * 16) (by omega)]
    norm_num
    omega
  | [b1, b2], h => by
    have h1 : b1 < 256 := h b1 (by simp)
    have h2 : b2 < 256 := h b2 (by simp)
    simp only [Base64Encode, base64Decode, decodeChunk,
      b64Val_b64Char (b1 / 4) (by omega),
      b64Val_b64Char (b1 % 4 * 16 + b2 / 16) (by omega),
      b64Val_b64Char (b2 % 16 * 4) (by omega)]
    rw [if_neg (b64Char_ne_pad _)]
    norm_num
    constructor
    · omega
    · omega
  | b1 :: b2 :: b3 :: rest, h => by
    have h1 : b1 < 256 := h b1 (by simp)
    have h2 : b2 < 256 := h b2 (by simp)
    have h3 : b3 < 256 := h b3 (by simp)
    have ih := base64Decode_Base64Encode rest (fun b hb => h b (by simp [hb]))
    simp only [Base64Encode, base64Decode, decodeChunk,
      b64Val_b64Char (b1 / 4) (by omega),
      b64Val_b64Char (b1 % 4 * 16 + b2 / 16) (by omega),
      b64Val_b64Char (b2 % 16 * 4 + b3 / 64) (by omega),
      b64Val_b64Char (b3 % 64) (by omega)]
    rw [if_neg (b64Char_ne_pad _), if_neg (b64Char_ne_pad _)]
    rw [ih]
    simp only [List.cons_append, List.nil_append, Option.some.injEq, List.cons.injEq]
    refine ⟨by omega, by omega, by omega, trivial⟩

/-- C6: for all byte strings, the generated password is the base64
encoding (no line breaks, the codec emits only alphabet characters and
padding) of `shortCode ++ passkey ++ timestamp`, and decoding it
reproduces that concatenation byte-for-byte. -/
theorem generatePassword_base64_roundtrip :
    ∀ shortCode passkey timestamp : List Nat,
      generatePassword shortCode passkey timestamp =
        Base64Encode (shortCode ++ passkey ++ timestamp) ∧
      ((∀ b ∈ shortCode ++ passkey ++ timestamp, b < 256) →
        base64Decode (generatePassword shortCode passkey timestamp) =
          some (shortCode ++ passkey ++ timestamp)) :=
  fun shortCode passkey timestamp =>
    ⟨rfl, fun h => base64Decode_Base64Encode (shortCode ++ passkey ++ timestamp) h⟩

/-- Witness for C6: the password for bytes "1", "2", "3" decodes back to
exactly those bytes. -/
theorem generatePassword_base64_roundtrip_witness :
    base64Decode (generatePassword [49] [50] [51]) = some ([49] ++ [50] ++ [51]) :=
  (generatePassword_base64_roundtrip [49] [50] [51]).2 (by decide)

/-- C7: every dispatch from one client instance stamps the single timestamp
generated at construction (never regenerated per call), so two dispatches
with the same business short code carry identical derived passwords. -/
theorem dispatcher_timestamp_fixed_at_construction :
    ∀ (pk : String) (tm : TimestampGenerator.Tm) (r₁ r₂ : STKPushRequest),
      (stampRequest (STKPushClient.construct pk tm) r₁).timestamp =
        TimestampGenerator.generate tm ∧
      (stampRequest (STKPushClient.construct pk tm) r₂).timestamp =
        TimestampGenerator.generate tm ∧
      (r₁.businessShortCode = r₂.businessShortCode →
        (stampRequest (STKPushClient.construct pk tm) r₁).password =
          (stampRequest (STKPushClient.construct pk tm) r₂).password) := by
  intro pk tm r₁ r₂
  refine ⟨rfl, rfl, fun h => ?_⟩
  simp [stampRequest, STKPushClient.construct, h]

/-- Witness for C7: two different concrete requests sharing a short code
get the same password from the same client. -/
theorem dispatcher_timestamp_fixed_witness :
    (stampRequest (STKPushClient.construct "pass" ⟨2024, 1, 2, 3, 4, 5⟩) sampleRequest).password =
      (stampRequest (STKPushClient.construct "pass" ⟨2024, 1, 2, 3, 4, 5⟩)
        { sampleRequest with amount := "2" }).password :=
  (dispatcher_timestamp_fixed_at_construction "pass" ⟨2024, 1, 2, 3, 4, 5⟩ sampleRequest
    { sampleRequest with amount := "2" }).2.2 rfl

/-- C8: every completed dispatch increments exactly one counter by exactly
one: the success counter exactly when a successful acknowledgement is
returned, the failure counter on every other completion path. -/
theorem dispatch_increments_exactly_one_counter :
    ∀ (client : STKPushClient) (env : DispatchEnv) (request : STKPushRequest) (c : Counters),
      (runInitiate client env request c).1 =
        (match (runInitiate client env request c).2 with
         | .ok _ => { c with success := c.success + 1 }
         | .err _ => { c with failure := c.failure + 1 }) := by
  intro client env request c
  unfold runInitiate dispatchBody
  dsimp only
  repeat' split
  all_goals simp_all

/-! Constructors for the canonical callback shape used by C9. -/

def mkMetadataItemJson (p : String × JsonVal) : JsonVal :=
  .obj [("Name", .str p.1), ("Value", p.2)]

def mkCallbackJson (mrid cid : String) (rc : Int) (rdesc : String)
    (items : List (String × JsonVal)) : JsonVal :=
  .obj [("Body", .obj [("stkCallback", .obj
    [("MerchantRequestID", .str mrid),
     ("CheckoutRequestID", .str cid),
     ("ResultCode", .intNum rc),
     ("ResultDesc", .str rdesc),
     ("CallbackMetadata", .obj [("Item", .arr (items.map mkMetadataItemJson))])])])]

theorem parseMetadataItem_mk (p : String × JsonVal) :
    parseMetadataItem (mkMetadataItemJson p) = some ⟨p.1, typeMetadataValue p.2⟩ := rfl

theorem parseMetadataItems_mk :
    ∀ items : List (String × JsonVal),
      parseMetadataItems (items.map mkMetadataItemJson) =
        some (items.map fun p => ⟨p.1, typeMetadataValue p.2⟩) := by
  intro items
  induction items with
  | nil => rfl
  | cons p rest ih =>
    simp [parseMetadataItems, parseMetadataItem_mk, ih]

theorem parseMetadataList_mk (items : List (String × JsonVal)) :
    parseMetadataList (.arr (items.map mkMetadataItemJson)) =
      some (items.map fun p => ⟨p.1, typeMetadataValue p.2⟩) := by
  simpa [parseMetadataList, jsonIterate] using parseMetadataItems_mk items

/-- C9: on a callback whose metadata list is present, the parser keeps the
items in order and types each value purely by its JSON shape (float,
integer, string, anything else serialised to text), and no value shape
makes the parse fail. -/
theorem callback_metadata_order_and_shape :
    ∀ (mrid cid : String) (rc : Int) (rdesc : String)
      (items : List (String × JsonVal)),
      parseCallback (mkCallbackJson mrid cid rc rdesc items) =
        .ok ⟨mrid, cid, rc, rdesc,
          some (items.map fun p => ⟨p.1, typeMetadataValue p.2⟩)⟩ := by
  intro mrid cid rc rdesc items
  simp [parseCallback, mkCallbackJson, jsonLookup, jsonGetStringField, jsonGetIntField,
    lookupField, parseMetadataList_mk items]

end MpesaSdk
